import Mathlib

/-!
Verification development for the `twai` Telegram assistant
(src/twai/twai.py).  The Python source is shallowly embedded: pure
fragments become Lean functions, the stateful handlers become explicit
state-passing functions over a small session-state type, and the
asynchronous polling loop of `generate_image_from_prompt` becomes a
schedule-indexed big-step evaluator.  Exceptions are modelled with
`Except` over an explicit error type mirroring the Python exception
classes that the code distinguishes.
-/

namespace Twai

/-- Python exception classes that the handlers in twai.py distinguish.
`requestError` is httpx.RequestError (all transport failures, including
`TimeoutException` raised when the 180-second client timeout elapses);
`httpStatusError` is httpx.HTTPStatusError, the class raised by
`Response.raise_for_status()` — in httpx's documented hierarchy it is a
sibling of `RequestError` under `HTTPError`, not a subclass of it.
`valueError` covers json.JSONDecodeError and binascii.Error.
`badRequest d` is telegram.error.BadRequest carrying description `d`;
`timedOut` is telegram.error.TimedOut. -/
inductive PyErr
  | requestError
  | httpStatusError
  | keyError
  | indexError
  | typeError
  | valueError
  | cancelledError
  | timedOut
  | badRequest (desc : String)
  | otherError (desc : String)
deriving DecidableEq

/-- Bytes of a generated image, each in `0..255`. -/
abbrev ImageBytes := List Nat

/-! ### Base64 (the parts of Python's `base64` module used at line 150)

`base64.b64decode` / `b64encode` implement RFC 4648 with `=` padding.
`b64decode` is modelled on inputs made of base64-alphabet characters
with standard padding — the only inputs the development exercises;
Python additionally discards characters outside the alphabet before
decoding (`validate=False`), which is the identity on such inputs. -/

/-- Character of the standard base64 alphabet for a sextet `s < 64`. -/
def sextetToChar (s : Nat) : Char :=
  if s < 26 then Char.ofNat (65 + s)
  else if s < 52 then Char.ofNat (97 + (s - 26))
  else if s < 62 then Char.ofNat (48 + (s - 52))
  else if s = 62 then Char.ofNat 43
  else Char.ofNat 47

/-- Sextet of a base64-alphabet character, `none` for a foreign character. -/
def charToSextet (c : Char) : Option Nat :=
  if 65 ≤ c.toNat ∧ c.toNat ≤ 90 then some (c.toNat - 65)
  else if 97 ≤ c.toNat ∧ c.toNat ≤ 122 then some (c.toNat - 97 + 26)
  else if 48 ≤ c.toNat ∧ c.toNat ≤ 57 then some (c.toNat - 48 + 52)
  else if c.toNat = 43 then some 62
  else if c.toNat = 47 then some 63
  else none

/-- The padding character. -/
def padChar : Char := Char.ofNat 61

/-- Base64 encoding of a byte list (`base64.b64encode`). -/
def b64encode : List Nat → List Char
  | [] => []
  | [a] => [sextetToChar (a / 4), sextetToChar (a % 4 * 16), padChar, padChar]
  | [a, b] => [sextetToChar (a / 4), sextetToChar (a % 4 * 16 + b / 16),
      sextetToChar (b % 16 * 4), padChar]
  | a :: b :: c :: rest =>
      sextetToChar (a / 4) :: sextetToChar (a % 4 * 16 + b / 16) ::
      sextetToChar (b % 16 * 4 + c / 64) :: sextetToChar (c % 64) :: b64encode rest

/-- Base64 decoding of a character list (`base64.b64decode`); `none`
models the `binascii.Error` Python raises on invalid padding or length. -/
def b64decode : List Char → Option (List Nat)
  | [] => some []
  | c0 :: c1 :: c2 :: c3 :: rest =>
    (charToSextet c0).bind fun s0 =>
    (charToSextet c1).bind fun s1 =>
    if c2 = padChar then
      if c3 = padChar ∧ rest = [] then some [s0 * 4 + s1 / 16] else none
    else
      (charToSextet c2).bind fun s2 =>
      if c3 = padChar then
        if rest = [] then some [s0 * 4 + s1 / 16, s1 % 16 * 16 + s2 / 4] else none
      else
        (charToSextet c3).bind fun s3 =>
        (b64decode rest).map fun tail =>
          (s0 * 4 + s1 / 16) :: (s1 % 16 * 16 + s2 / 4) :: (s2 % 4 * 64 + s3) :: tail
  | _ => none

theorem charToSextet_sextetToChar : ∀ s : Nat, s < 64 →
    charToSextet (sextetToChar s) = some s := by decide

theorem sextetToChar_ne_pad : ∀ s : Nat, s < 64 → sextetToChar s ≠ padChar := by decide

/-- Round trip: decoding an encoded byte list recovers it. -/
theorem b64decode_b64encode : ∀ B : List Nat, (∀ b ∈ B, b < 256) →
    b64decode (b64encode B) = some B
  | [], _ => rfl
  | [a], h => by
    have ha : a < 256 := h a (by simp)
    rw [b64encode, b64decode]
    rw [charToSextet_sextetToChar (a / 4) (by omega),
        charToSextet_sextetToChar (a % 4 * 16) (by omega)]
    simp only [Option.some_bind]
    have h1 : a / 4 * 4 + a % 4 * 16 / 16 = a := by omega
    show some [a / 4 * 4 + a % 4 * 16 / 16] = some [a]
    rw [h1]
  | [a, b], h => by
    have ha : a < 256 := h a (by simp)
    have hb : b < 256 := h b (by simp)
    rw [b64encode, b64decode]
    rw [charToSextet_sextetToChar (a / 4) (by omega),
        charToSextet_sextetToChar (a % 4 * 16 + b / 16) (by omega),
        charToSextet_sextetToChar (b % 16 * 4) (by omega)]
    simp only [Option.some_bind]
    rw [if_neg (sextetToChar_ne_pad (b % 16 * 4) (by omega))]
    have h1 : a / 4 * 4 + (a % 4 * 16 + b / 16) / 16 = a := by omega
    have h2 : (a % 4 * 16 + b / 16) % 16 * 16 + b % 16 * 4 / 4 = b := by omega
    show some [a / 4 * 4 + (a % 4 * 16 + b / 16) / 16,
        (a % 4 * 16 + b / 16) % 16 * 16 + b % 16 * 4 / 4] = some [a, b]
    rw [h1, h2]
  | a :: b :: c :: rest, h => by
    have ha : a < 256 := h a (by simp)
    have hb : b < 256 := h b (by simp)
    have hc : c < 256 := h c (by simp)
    have ih := b64decode_b64encode rest (fun x hx => h x (by simp [hx]))
    rw [b64encode, b64decode]
    rw [charToSextet_sextetToChar (a / 4) (by omega),
        charToSextet_sextetToChar (a % 4 * 16 + b / 16) (by omega),
        charToSextet_sextetToChar (b % 16 * 4 + c / 64) (by omega),
        charToSextet_sextetToChar (c % 64) (by omega)]
    simp only [Option.some_bind]
    rw [if_neg (sextetToChar_ne_pad (b % 16 * 4 + c / 64) (by omega))]
    rw [if_neg (sextetToChar_ne_pad (c % 64) (by omega))]
    rw [ih]
    have h1 : a / 4 * 4 + (a % 4 * 16 + b / 16) / 16 = a := by omega
    have h2 : (a % 4 * 16 + b / 16) % 16 * 16 + (b % 16 * 4 + c / 64) / 4 = b := by omega
    have h3 : (b % 16 * 4 + c / 64) % 4 * 64 + c % 64 = c := by omega
    show some ((a / 4 * 4 + (a % 4 * 16 + b / 16) / 16) ::
        ((a % 4 * 16 + b / 16) % 16 * 16 + (b % 16 * 4 + c / 64) / 4) ::
        ((b % 16 * 4 + c / 64) % 4 * 64 + c % 64) :: rest) = some (a :: b :: c :: rest)
    rw [h1, h2, h3]

/-! ### JSON values and Python subscription

`_image_api_call` (lines 144-153) evaluates `data["artifacts"][0]["base64"]`
on the decoded JSON body.  Python raises `KeyError` for a missing dict key,
`IndexError` for an out-of-range list index, and `TypeError` when the
subscripted value does not support that kind of subscription (a string is
subscriptable by integers, yielding a one-character string). -/

inductive JVal
  | jstr (s : String)
  | jnum (n : Int)
  | jbool (b : Bool)
  | jnull
  | jarr (l : List JVal)
  | jobj (l : List (String × JVal))

/-- Python `v[k]` for a string key `k`. -/
def getKey (v : JVal) (k : String) : Except PyErr JVal :=
  match v with
  | .jobj l =>
    match l.lookup k with
    | some x => .ok x
    | none => .error .keyError
  | _ => .error .typeError

/-- Python `v[i]` for an integer index `i ≥ 0`. -/
def getIdx (v : JVal) (i : Nat) : Except PyErr JVal :=
  match v with
  | .jarr l =>
    match l.get? i with
    | some x => .ok x
    | none => .error .indexError
  | .jstr s =>
    match s.data.get? i with
    | some c => .ok (.jstr (String.singleton c))
    | none => .error .indexError
  | .jobj _ => .error .keyError
  | _ => .error .typeError

/-- One HTTP exchange with the image provider as seen by `_image_api_call`
(lines 144-153): either the request itself fails on the wire — httpx raises
a `RequestError`, and the 180-second client timeout configured at line 145
surfaces the same way, as `TimeoutException`, a subclass of `RequestError` —
or a response arrives carrying a status code and a body (`none` meaning the
body is not valid JSON, so `response.json()` raises). -/
inductive NetOutcome
  | netError
  | response (status : Nat) (body : Option JVal)

/-- Body of the `try` block of `_image_api_call` (lines 145-150):
`raise_for_status()` raises `HTTPStatusError` unless the status is 2xx;
`response.json()` raises on a malformed body; then
`data["artifacts"][0]["base64"]` is subscripted and the field is fed to
`base64.b64decode` (which raises `TypeError` on a non-string and
`binascii.Error`, modelled `valueError`, on invalid base64 padding). -/
def imageApiTryBody (env : NetOutcome) : Except PyErr (Option ImageBytes) :=
  match env with
  | .netError => .error .requestError
  | .response status body =>
    if status < 200 ∨ 300 ≤ status then .error .httpStatusError
    else
      match body with
      | none => .error .valueError
      | some data =>
        (getKey data "artifacts").bind fun artifacts =>
        (getIdx artifacts 0).bind fun a0 =>
        (getKey a0 "base64").bind fun b64field =>
        match b64field with
        | .jstr s =>
          match b64decode s.data with
          | some bytes => .ok (some bytes)
          | none => .error .valueError
        | _ => .error .typeError

/-- `_image_api_call` (lines 132-153): the `try` body guarded by
`except (httpx.RequestError, KeyError, IndexError): return None`
(lines 151-153).  Any other exception class is not caught and escapes to
the caller. -/
def image_api_call (env : NetOutcome) : Except PyErr (Option ImageBytes) :=
  match imageApiTryBody env with
  | .error .requestError => .ok none
  | .error .keyError => .ok none
  | .error .indexError => .ok none
  | .error e => .error e
  | .ok v => .ok v

/-- C2 counterexample: two of the claimed input conditions do not make
`generateImage` return null.  A non-success HTTP status makes
`raise_for_status()` raise `httpx.HTTPStatusError`, a class absent from
the `except (httpx.RequestError, KeyError, IndexError)` clause (it is a
sibling, not a subclass, of `RequestError`), so on a 500 response with a
well-formed JSON body the call evaluates to an escaping error.  And a
malformed payload field also escapes: on a success response whose
`"base64"` field holds a number instead of a string, `base64.b64decode`
raises `TypeError`, likewise uncaught. -/
theorem image_api_call_hard_failures_escape :
    (image_api_call (.response 500 (some (.jobj []))) = .error .httpStatusError ∧
     image_api_call (.response 500 (some (.jobj []))) ≠ .ok none) ∧
    (image_api_call (.response 200 (some (.jobj
        [("artifacts", .jarr [.jobj [("base64", .jnum 5)]])])))
        = .error .typeError ∧
     image_api_call (.response 200 (some (.jobj
        [("artifacts", .jarr [.jobj [("base64", .jnum 5)]])]))) ≠ .ok none) :=
  ⟨⟨rfl, fun h => Except.noConfusion h⟩, ⟨rfl, fun h => Except.noConfusion h⟩⟩

/-- C2 amended: on a network error — including the 180-time-unit bound
being exceeded, which httpx surfaces as `TimeoutException ⊆ RequestError` —
and on a missing payload field (a body without `"artifacts"`, with an empty
artifact list, or with an artifact object lacking `"base64"`, i.e. the
`KeyError`/`IndexError` cases), `generateImage` returns null and no
exception escapes; the other two claimed conditions escape instead: a
non-success status raises `HTTPStatusError`, and a malformed payload
raises an uncaught exception as well — `JSONDecodeError` for a non-JSON
body, `TypeError` for a non-string `"base64"` field, `binascii.Error`
for invalid base64 content. -/
theorem image_api_call_soft_failures :
    image_api_call .netError = .ok none ∧
    ∀ status : Nat, 200 ≤ status → status < 300 →
      (image_api_call (.response status (some (.jobj [("something", .jnum 0)]))) = .ok none ∧
       image_api_call (.response status (some (.jobj [("artifacts", .jarr [])]))) = .ok none ∧
       image_api_call (.response status
         (some (.jobj [("artifacts", .jarr [.jobj [("finishReason", .jstr "SUCCESS")]])])))
         = .ok none) ∧
      (image_api_call (.response status none) = .error .valueError ∧
       image_api_call (.response status
         (some (.jobj [("artifacts", .jarr [.jobj [("base64", .jnum 5)]])])))
         = .error .typeError ∧
       image_api_call (.response status
         (some (.jobj [("artifacts", .jarr [.jobj [("base64", .jstr "A")]])])))
         = .error .valueError) := by
  refine ⟨rfl, fun status h1 h2 => ?_⟩
  have hs : ¬ (status < 200 ∨ 300 ≤ status) := by omega
  refine ⟨⟨?_, ?_, ?_⟩, ⟨?_, ?_, ?_⟩⟩ <;>
    simp only [image_api_call, imageApiTryBody, if_neg hs] <;> rfl

/-- Witness for the amended C2 theorem at status 200. -/
theorem image_api_call_soft_failures_witness :
    image_api_call (.response 200 (some (.jobj [("artifacts", .jarr [])]))) = .ok none :=
  (((image_api_call_soft_failures.2 200 (by omega) (by omega)).1).2).1

/-- C7: when the provider response carries the base64 encoding of a byte
string `B` in the `data["artifacts"][0]["base64"]` field of a success
response, `generateImage` returns exactly the bytes `B`: encoding followed
by the call's `base64.b64decode` is the identity on the payload. -/
theorem generateImage_b64_roundtrip (B : ImageBytes) (hB : ∀ b ∈ B, b < 256) :
    image_api_call (.response 200 (some (.jobj
      [("artifacts", .jarr [.jobj [("base64", .jstr (String.mk (b64encode B)))]])])))
      = .ok (some B) := by
  have hdec : b64decode (String.mk (b64encode B)).data = some B :=
    b64decode_b64encode B hB
  have hbody : imageApiTryBody (.response 200 (some (.jobj
      [("artifacts", .jarr [.jobj [("base64", .jstr (String.mk (b64encode B)))]])])))
      = .ok (some B) := by
    have hred : imageApiTryBody (.response 200 (some (.jobj
        [("artifacts", .jarr [.jobj [("base64", .jstr (String.mk (b64encode B)))]])])))
        = (match b64decode (String.mk (b64encode B)).data with
           | some bytes => .ok (some bytes)
           | none => .error .valueError) := rfl
    rw [hred, hdec]
  unfold image_api_call
  rw [hbody]

/-- Witness for C7 at the bytes of "Man" (base64 "TWFu"). -/
theorem generateImage_b64_roundtrip_witness :
    (∀ b ∈ [77, 97, 110], b < 256) ∧
    image_api_call (.response 200 (some (.jobj
      [("artifacts", .jarr
        [.jobj [("base64", .jstr (String.mk (b64encode [77, 97, 110])))]])])))
      = .ok (some [77, 97, 110]) :=
  ⟨by decide, generateImage_b64_roundtrip [77, 97, 110] (by decide)⟩

/-! ### UI strings of the image flow (twai.py lines 91-129) -/

/-- An ASCII apostrophe, kept out of string literals. -/
def squote : String := String.singleton (Char.ofNat 39)

/-- The spinner animation frames (line 45). -/
def spinner_frames : List String := ["⠋", "⠙", "⠹", "⠸", "⠼", "⠴", "⠦", "⠧", "⠇", "⠏"]

/-- Text of the spinner edit at loop counter `i` (line 101):
`f"`Processing... {spinner_frames[i % len(spinner_frames)]}`"`. -/
def spinnerText (i : Nat) : String :=
  "`Processing... " ++ spinner_frames.getD (i % spinner_frames.length) "" ++ "`"

/-- The terminal edit of the status message on observed cancellation (line 107). -/
def cancelNotice : String := "`🚫 Generation cancelled.`"

/-- Caption of the delivered photo (line 120):
`f"Image generated for:\n*{prompt!r}*"`-style with literal quotes. -/
def photoCaption (prompt : String) : String :=
  "Image generated for:\n*" ++ squote ++ prompt ++ squote ++ "*"

/-- Reply sent by `menu_command` (line 68). -/
def mainMenuReply : String := "Here is the main menu:"

/-- Reply on a timed-out photo upload (line 123). -/
def uploadTimedOutReply : String := "The upload to Telegram timed out. Please try again."

/-- Reply on any other photo-delivery error (line 125). -/
def photoErrorReply : String := "An error occurred while sending the photo."

/-- Reply on a null generation result (line 127). -/
def generationFailedReply : String :=
  "Sorry, image generation failed. The prompt may have been rejected or the service may be unavailable."

/-! ### The polling loop of `generate_image_from_prompt` (lines 87-130)

The handler starts `_image_api_call` as a background task and loops:
`while not task.done(): try: await wait_for(shield(task), 0.3)` —
on `TimeoutError` it edits the status message to the next spinner frame
and increments `i`; on `CancelledError` (the user pressed Cancel and
`cancel_command`, lines 155-160, called `task.cancel()`) it edits the
status message to a cancellation notice, reposts the menu and returns
`ConversationHandler.END`.  After the loop, `task.result()` is read
(re-raising any exception stored in the task, including `CancelledError`
for a task whose cancellation completed between two polls),
`user_data["active_task"]` is deleted, the status message is deleted,
and the photo or an apology is sent.  The embedding evaluates one run of
the handler against an explicit schedule: `n` is the number of polls that
time out before the task completes on its own, and `CancelAt` says if and
when the user-initiated cancellation takes effect. -/

/-- What the background task delivers: `.ok (some bytes)` for an image,
`.ok none` for the soft failure, `.error e` for an exception stored in
the task and re-raised by `task.result()`. -/
abbrev TaskResult := Except PyErr (Option ImageBytes)

/-- Schedule of a user-initiated cancellation relative to the loop:
either it never takes effect, or it is observed as `CancelledError` by
the awaited poll of iteration `k`, or it completes while iteration `k`
is busy editing the status message — between two polls — so that the
next `while` check sees the task done. -/
inductive CancelAt
  | never
  | duringAwait (k : Nat)
  | betweenPolls (k : Nat)

/-- Observable trace of one run of `generate_image_from_prompt`. -/
structure RunResult where
  /-- Texts of the spinner edits of the status message (line 103), in order. -/
  spinnerEdits : List String
  /-- Final edit of the status message (line 107), if any. -/
  finalEdit : Option String
  /-- Whether the status message was deleted (line 114). -/
  statusDeleted : Bool
  /-- The attempted `send_photo`, bytes and caption (lines 118-121), if any. -/
  photoAttempt : Option (ImageBytes × String)
  /-- Plain text replies sent, in order (lines 109, 123, 125, 127, 129). -/
  replies : List String
  /-- Exception escaping the handler, if any. -/
  raised : Option PyErr
  /-- Whether the handler returned `ConversationHandler.END`. -/
  returnedEnd : Bool
  /-- Whether `user_data["active_task"]` is still present after the run. -/
  activeTaskAfter : Bool
deriving DecidableEq

/-- The part of the run after the `while` loop exits normally (lines
112-130): `task.result()` re-raises a stored exception before the
`del user_data["active_task"]` of line 113 is reached; otherwise the
handle is removed, the status message is deleted, and the photo (with
fallback apologies on `TimedOut` or any other delivery error) or the
failure apology is sent, followed by the menu repost of line 129. -/
def finishRun (prompt : String) (n : Nat) (res : TaskResult)
    (photoSend : Except PyErr Unit) : RunResult :=
  match res with
  | .error e =>
      { spinnerEdits := (List.range n).map spinnerText, finalEdit := none,
        statusDeleted := false, photoAttempt := none, replies := [],
        raised := some e, returnedEnd := false, activeTaskAfter := true }
  | .ok (some bytes) =>
      { spinnerEdits := (List.range n).map spinnerText, finalEdit := none,
        statusDeleted := true, photoAttempt := some (bytes, photoCaption prompt),
        replies := (match photoSend with
          | .ok _ => []
          | .error .timedOut => [uploadTimedOutReply]
          | .error _ => [photoErrorReply]) ++ [mainMenuReply],
        raised := none, returnedEnd := true, activeTaskAfter := false }
  | .ok none =>
      { spinnerEdits := (List.range n).map spinnerText, finalEdit := none,
        statusDeleted := true, photoAttempt := none,
        replies := [generationFailedReply, mainMenuReply],
        raised := none, returnedEnd := true, activeTaskAfter := false }

/-- One run of `generate_image_from_prompt` (lines 87-130) against a
schedule: `n` polls time out (each editing the next spinner frame) before
the task completes with `res`; `cancel` places the user-initiated
cancellation; `photoSend` is the outcome of the `send_photo` call when one
is attempted.  A cancellation observed by the awaited poll of iteration
`k ≤ n` runs lines 106-110: the cancellation notice is edited in, the menu
is reposted, `END` is returned — and `user_data["active_task"]` is never
deleted on this path.  A cancellation completing between polls during
iteration `k < n` lets the `while` condition see the task done after `k+1`
spinner edits, and `task.result()` at line 112 re-raises `CancelledError`,
which nothing in the handler catches.  A schedule placing the cancellation
after the task has completed has no effect on the run. -/
def generate_image_from_prompt (prompt : String) (n : Nat) (res : TaskResult)
    (cancel : CancelAt) (photoSend : Except PyErr Unit) : RunResult :=
  match cancel with
  | .never => finishRun prompt n res photoSend
  | .duringAwait k =>
      if k ≤ n then
        { spinnerEdits := (List.range k).map spinnerText,
          finalEdit := some cancelNotice, statusDeleted := false,
          photoAttempt := none, replies := [mainMenuReply],
          raised := none, returnedEnd := true, activeTaskAfter := true }
      else finishRun prompt n res photoSend
  | .betweenPolls k =>
      if k < n then
        { spinnerEdits := (List.range (k + 1)).map spinnerText,
          finalEdit := none, statusDeleted := false, photoAttempt := none,
          replies := [], raised := some .cancelledError,
          returnedEnd := false, activeTaskAfter := true }
      else finishRun prompt n res photoSend

/-! ### The shielded bounded wait (line 99)

`await asyncio.wait_for(asyncio.shield(generation_task), timeout=0.3)`:
if the task completes within the bound the wait returns its result;
otherwise `TimeoutError` is raised and — because the task is wrapped in
`asyncio.shield` — the timeout cancels only the shield wrapper, never the
task itself, which keeps running with its state intact. -/

/-- A background task: it completes after `total` units of work and then
holds `result`. -/
structure BgTask where
  total : Nat
  result : TaskResult

/-- Running state of a background task: the work done so far and whether
the task itself has been cancelled. -/
structure TaskState where
  task : BgTask
  elapsed : Nat
  cancelled : Bool

/-- `asyncio.create_task(_image_api_call(prompt))` (line 93): the task
starts with no work done and not cancelled. -/
def startTask (t : BgTask) : TaskState := ⟨t, 0, false⟩

/-- One `wait_for(shield(task), timeout)` (line 99): the task advances by
`timeout` units; if that completes it, the result is observed, otherwise
the poll raises `TimeoutError` (`none`) and the task — shielded — runs on
uncancelled. -/
def pollShielded (s : TaskState) (timeout : Nat) : TaskState × Option TaskResult :=
  if s.task.total ≤ s.elapsed + timeout then
    ({ s with elapsed := s.task.total }, some s.task.result)
  else
    ({ s with elapsed := s.elapsed + timeout }, none)

/-- A finite sequence of bounded polls. -/
def pollMany (s : TaskState) (ts : List Nat) : TaskState :=
  ts.foldl (fun s t => (pollShielded s t).1) s

/-- Awaiting the task to completion: a cancelled task raises
`CancelledError`, otherwise its result is returned. -/
def awaitTask (s : TaskState) : TaskResult :=
  if s.cancelled then .error .cancelledError else s.task.result

theorem pollMany_preserves (ts : List Nat) :
    ∀ s : TaskState, (pollMany s ts).task = s.task ∧
      (pollMany s ts).cancelled = s.cancelled := by
  induction ts with
  | nil => intro s; exact ⟨rfl, rfl⟩
  | cons t ts ih =>
    intro s
    have hstep : ((pollShielded s t).1).task = s.task ∧
        ((pollShielded s t).1).cancelled = s.cancelled := by
      unfold pollShielded
      split <;> exact ⟨rfl, rfl⟩
    have := ih (pollShielded s t).1
    exact ⟨by rw [show pollMany s (t :: ts) = pollMany (pollShielded s t).1 ts from rfl,
        this.1, hstep.1],
      by rw [show pollMany s (t :: ts) = pollMany (pollShielded s t).1 ts from rfl,
        this.2, hstep.2]⟩

/-- C1: for every generation task and every finite sequence of bounded
polls, the timed-out polls neither cancel nor alter the underlying task:
after the polls the task is uncancelled and unchanged, and letting it
finish yields exactly the result of awaiting it directly with no
intermediate polls. -/
theorem poll_shield_refines_direct_await (t : BgTask) (ts : List Nat) :
    (pollMany (startTask t) ts).cancelled = false ∧
    (pollMany (startTask t) ts).task = t ∧
    awaitTask (pollMany (startTask t) ts) = awaitTask (startTask t) := by
  have h := pollMany_preserves ts (startTask t)
  refine ⟨h.2, h.1, ?_⟩
  unfold awaitTask
  rw [h.1, h.2]

/-! ### The spinner-edit exception filter (lines 102-104) -/

/-- The `try/except BadRequest: pass` around the spinner edit
(lines 102-104): `true` when an edit failure `e` is swallowed, `false`
when it propagates out of the loop.  The two benign Telegram failures —
description "Message is not modified" and "Message to edit not found" —
are both raised as `telegram.error.BadRequest`, but so is every other
bad-request failure. -/
def spinnerEditSwallows : PyErr → Bool
  | .badRequest _ => true
  | _ => false

/-- C4 counterexample: the catch is broader than the two benign
categories — a `BadRequest` with description "Chat not found" is neither
"message content unchanged" nor "message not found", yet it is swallowed
rather than propagated. -/
theorem spinner_swallow_nonbenign_badrequest :
    spinnerEditSwallows (.badRequest "Chat not found") = true ∧
    PyErr.badRequest "Chat not found" ≠ .badRequest "Message is not modified" ∧
    PyErr.badRequest "Chat not found" ≠ .badRequest "Message to edit not found" :=
  ⟨rfl, by decide, by decide⟩

/-- C4 amended: a spinner-edit failure is swallowed if and only if it is
a `BadRequest` of any description — a class containing the two benign
categories but also every other bad-request failure; failures outside
`BadRequest` (timeouts, network errors, ...) propagate. -/
theorem spinner_swallow_iff_badrequest (e : PyErr) :
    spinnerEditSwallows e = true ↔ ∃ d, e = .badRequest d := by
  cases e <;> simp [spinnerEditSwallows]

theorem finishRun_spinnerEdits (prompt : String) (n : Nat) (res : TaskResult)
    (send : Except PyErr Unit) :
    (finishRun prompt n res send).spinnerEdits = (List.range n).map spinnerText := by
  rcases res with e | v
  · rfl
  · cases v <;> rfl

/-- C3 counterexample: in a run where the loop observes the cancellation
(terminal state cancelled), the handler edits the cancellation notice and
returns `END`, but `user_data["active_task"]` is never deleted — the
`del` of line 113 sits only on the normal exit path — so the handle is
not removed from the session's active-task slot. -/
theorem cancelled_leaves_active_task :
    (generate_image_from_prompt "sunset" 5 (.ok none) (.duringAwait 2) (.ok ())).finalEdit
      = some cancelNotice ∧
    (generate_image_from_prompt "sunset" 5 (.ok none) (.duringAwait 2) (.ok ())).returnedEnd
      = true ∧
    (generate_image_from_prompt "sunset" 5 (.ok none) (.duringAwait 2) (.ok ())).activeTaskAfter
      = true :=
  ⟨rfl, rfl, rfl⟩

/-- C3 amended: the handle is removed from the session's active-task slot
exactly once when the loop exits normally and `task.result()` returns —
i.e. when the task reached succeeded or failed — but when the task
reaches cancelled (observed by the awaited poll) the handler returns with
the handle still in the slot. -/
theorem active_task_cleanup_cases :
    (∀ (prompt : String) (n : Nat) (v : Option ImageBytes) (send : Except PyErr Unit),
      (generate_image_from_prompt prompt n (.ok v) .never send).activeTaskAfter = false) ∧
    (∀ (prompt : String) (n : Nat) (res : TaskResult) (send : Except PyErr Unit) (k : Nat),
      k ≤ n →
      (generate_image_from_prompt prompt n res (.duringAwait k) send).activeTaskAfter
        = true) := by
  constructor
  · intro prompt n v send
    cases v <;> rfl
  · intro prompt n res send k hk
    have hred : generate_image_from_prompt prompt n res (.duringAwait k) send =
        (if k ≤ n then
          { spinnerEdits := (List.range k).map spinnerText,
            finalEdit := some cancelNotice, statusDeleted := false,
            photoAttempt := none, replies := [mainMenuReply],
            raised := none, returnedEnd := true, activeTaskAfter := true }
        else finishRun prompt n res send) := rfl
    rw [hred, if_pos hk]

/-- Witness for the amended C3 theorem. -/
theorem active_task_cleanup_cases_witness :
    (generate_image_from_prompt "p" 2 (.ok none) .never (.ok ())).activeTaskAfter = false ∧
    (generate_image_from_prompt "p" 2 (.ok none) (.duringAwait 1) (.ok ())).activeTaskAfter
      = true :=
  ⟨active_task_cleanup_cases.1 "p" 2 none (.ok ()),
   active_task_cleanup_cases.2 "p" 2 (.ok none) (.ok ()) 1 (by omega)⟩

/-- C5: in the run where the user's cancellation completes while
iteration 1 of the loop is editing the status message — between two
polls, before the task would have completed on its own after 5 polls —
the `while` condition sees the task done, `task.result()` at line 112
re-raises `CancelledError`, and the handler crashes: no cancellation
notice is edited, `END` is not returned (the dialogue state is not reset
to IDLE), the active-task handle survives; only "no photo is sent"
holds. -/
theorem cancel_between_polls_crashes :
    (generate_image_from_prompt "sunset" 5 (.ok (some [0])) (.betweenPolls 1) (.ok ())).raised
      = some .cancelledError ∧
    (generate_image_from_prompt "sunset" 5 (.ok (some [0])) (.betweenPolls 1) (.ok ())).finalEdit
      = none ∧
    (generate_image_from_prompt "sunset" 5 (.ok (some [0])) (.betweenPolls 1) (.ok ())).returnedEnd
      = false ∧
    (generate_image_from_prompt "sunset" 5 (.ok (some [0])) (.betweenPolls 1) (.ok ())).photoAttempt
      = none ∧
    (generate_image_from_prompt "sunset" 5 (.ok (some [0])) (.betweenPolls 1) (.ok ())).activeTaskAfter
      = true :=
  ⟨rfl, rfl, rfl, rfl, rfl⟩

/-- C6: while the task is pending every loop iteration either observes
completion and exits — a completion-free run of `n` timed-out polls
performs exactly `n` spinner edits — or edits the status message to the
next frame: the `k`-th edit shows frame `k mod N` of the `N`-frame
sequence, and the frame sequence cycles back to the first frame after
the last. -/
theorem spinner_frame_progression (prompt : String) (n : Nat) (res : TaskResult)
    (send : Except PyErr Unit) (k : Nat) (hk : k < n) :
    (generate_image_from_prompt prompt n res .never send).spinnerEdits.length = n ∧
    (generate_image_from_prompt prompt n res .never send).spinnerEdits[k]?
      = some ("`Processing... "
          ++ spinner_frames.getD (k % spinner_frames.length) "" ++ "`") ∧
    spinnerText (k + spinner_frames.length) = spinnerText k := by
  have hedits : (generate_image_from_prompt prompt n res .never send).spinnerEdits
      = (List.range n).map spinnerText := finishRun_spinnerEdits prompt n res send
  refine ⟨?_, ?_, ?_⟩
  · rw [hedits]
    simp
  · rw [hedits]
    rw [List.getElem?_map, List.getElem?_range hk]
    rfl
  · unfold spinnerText
    rw [Nat.add_mod_right]

/-- Witness for C6 at a 3-poll run, frame index 1. -/
theorem spinner_frame_progression_witness :
    (generate_image_from_prompt "p" 3 (.ok none) .never (.ok ())).spinnerEdits.length = 3 ∧
    (generate_image_from_prompt "p" 3 (.ok none) .never (.ok ())).spinnerEdits[1]?
      = some ("`Processing... "
          ++ spinner_frames.getD (1 % spinner_frames.length) "" ++ "`") ∧
    spinnerText (1 + spinner_frames.length) = spinnerText 1 :=
  spinner_frame_progression "p" 3 (.ok none) (.ok ()) 1 (by omega)

/-- C8 counterexample: when the task fails (null result) the status
message is deleted — line 114 runs before the `if image_bytes` check —
and is never edited to a terminal message; the failure apology goes out
as a separate new message. -/
theorem status_message_deleted_on_failure :
    (generate_image_from_prompt "p" 3 (.ok none) .never (.ok ())).statusDeleted = true ∧
    (generate_image_from_prompt "p" 3 (.ok none) .never (.ok ())).finalEdit = none ∧
    (generate_image_from_prompt "p" 3 (.ok none) .never (.ok ())).replies
      = [generationFailedReply, mainMenuReply] :=
  ⟨rfl, rfl, rfl⟩

/-- C8 amended: after the spinner edits, the status message is finalized
by deletion whenever the task completes with a result — succeeded or
failed alike, the failure apology being sent as a separate message — and
is edited to the terminal cancellation notice exactly when the loop
observes a cancellation. -/
theorem status_message_finalization :
    (∀ (prompt : String) (n : Nat) (bytes : ImageBytes) (send : Except PyErr Unit),
      (generate_image_from_prompt prompt n (.ok (some bytes)) .never send).statusDeleted
        = true ∧
      (generate_image_from_prompt prompt n (.ok (some bytes)) .never send).finalEdit
        = none) ∧
    (∀ (prompt : String) (n : Nat) (send : Except PyErr Unit),
      (generate_image_from_prompt prompt n (.ok none) .never send).statusDeleted = true ∧
      (generate_image_from_prompt prompt n (.ok none) .never send).finalEdit = none ∧
      generationFailedReply
        ∈ (generate_image_from_prompt prompt n (.ok none) .never send).replies) ∧
    (∀ (prompt : String) (n : Nat) (res : TaskResult) (send : Except PyErr Unit) (k : Nat),
      k ≤ n →
      (generate_image_from_prompt prompt n res (.duringAwait k) send).statusDeleted
        = false ∧
      (generate_image_from_prompt prompt n res (.duringAwait k) send).finalEdit
        = some cancelNotice) := by
  refine ⟨fun prompt n bytes send => ⟨rfl, rfl⟩,
    fun prompt n send => ⟨rfl, rfl, ?_⟩,
    fun prompt n res send k hk => ?_⟩
  · show generationFailedReply ∈ [generationFailedReply, mainMenuReply]
    simp
  · have hred : generate_image_from_prompt prompt n res (.duringAwait k) send =
        (if k ≤ n then
          { spinnerEdits := (List.range k).map spinnerText,
            finalEdit := some cancelNotice, statusDeleted := false,
            photoAttempt := none, replies := [mainMenuReply],
            raised := none, returnedEnd := true, activeTaskAfter := true }
        else finishRun prompt n res send) := rfl
    rw [hred, if_pos hk]
    exact ⟨rfl, rfl⟩

/-- Witness for the amended C8 theorem. -/
theorem status_message_finalization_witness :
    (generate_image_from_prompt "p" 2 (.ok (some [7])) .never (.ok ())).statusDeleted
      = true ∧
    (generate_image_from_prompt "p" 2 (.ok none) .never (.ok ())).statusDeleted = true ∧
    (generate_image_from_prompt "p" 2 (.ok none) (.duringAwait 0) (.ok ())).finalEdit
      = some cancelNotice :=
  ⟨(status_message_finalization.1 "p" 2 [7] (.ok ())).1,
   (status_message_finalization.2.1 "p" 2 (.ok ())).1,
   (status_message_finalization.2.2 "p" 2 (.ok none) (.ok ()) 0 (by omega)).2⟩

/-! ### Session state: `clear_command`, `cancel_command`, `handle_message`
(lines 70-75, 155-160, 163-174)

`context.user_data` is the bot framework's per-user store; the handlers
touch two keys: `"history"` (the conversation turns kept for the text
flow; absent until first used) and `"active_task"` (the in-flight
generation task handle).  Turns are modelled as strings. -/

structure UserData where
  /-- The `"history"` entry: `none` when the key is absent. -/
  history : Option (List String)
  /-- Whether the `"active_task"` key is present. -/
  hasActiveTask : Bool
deriving DecidableEq

/-- Reply of `clear_command` when a history entry was present (line 73). -/
def historyClearedReply : String := "Our text conversation history has been cleared."

/-- Reply of `clear_command` when no history entry exists (line 75). -/
def noHistoryReply : String := "There" ++ squote ++ "s no conversation history to clear."

/-- `clear_command` (lines 70-75): `if "history" in user_data` — a
presence check on the key, not an emptiness check on the value — delete
the key and confirm; else report that there is nothing to clear. -/
def clear_command (ud : UserData) : UserData × String :=
  match ud.history with
  | some _ => ({ ud with history := none }, historyClearedReply)
  | none => (ud, noHistoryReply)

/-- `cancel_command` (lines 155-160): if an `"active_task"` entry exists
its task gets a `cancel()` request (first component: whether one was
issued), then "Action cancelled." is sent and the conversation ends. -/
def cancel_command (ud : UserData) : Bool × String :=
  (ud.hasActiveTask, "Action cancelled.")

/-- `handle_message` (lines 163-174): initialize the `"history"` entry to
`[]` if absent, then call the text model with the stored history and the
inbound text — the call is abstracted as `api`, returning either the
reply text together with the updated turn list (`chat.history` after a
successful `send_message_async`) or an exception.  On success the entry
is overwritten with the updated turns and the reply is sent; on any
exception the apology is sent and the entry is left as it was after the
initialization. -/
def handle_message (ud : UserData) (text : String)
    (api : List String → String → Except PyErr (String × List String)) :
    UserData × String :=
  let ud1 := if ud.history.isNone then { ud with history := some [] } else ud
  match api (ud1.history.getD []) text with
  | .ok (reply, newHistory) => ({ ud1 with history := some newHistory }, reply)
  | .error _ => (ud1, "Sorry, an error occurred with the text generation.")

/-- C9 counterexample: a session whose stored history is present but
empty — reachable, since `handle_message` initializes the entry to `[]`
before the model call and leaves it on failure — is reported as cleared,
not as "nothing to clear", and the entry is deleted rather than left as
a no-op. -/
theorem clear_reports_cleared_on_empty_history :
    (clear_command ⟨some [], false⟩).2 = historyClearedReply ∧
    (clear_command ⟨some [], false⟩).2 ≠ noHistoryReply ∧
    (clear_command ⟨some [], false⟩).1.history = none :=
  ⟨rfl, by decide, rfl⟩

/-- C9 amended: the clear operation branches on presence of the stored
history entry, not on its emptiness: with an entry present — even an
empty one — it removes the entry and reports it cleared; only with no
entry at all is it a no-op reporting "nothing to clear" (and it never
errors). -/
theorem clear_command_cases (ud : UserData) :
    (∀ h : List String, ud.history = some h →
      (clear_command ud).1.history = none ∧ (clear_command ud).2 = historyClearedReply) ∧
    (ud.history = none →
      (clear_command ud).1 = ud ∧ (clear_command ud).2 = noHistoryReply) := by
  constructor
  · intro h hh
    unfold clear_command
    rw [hh]
    exact ⟨rfl, rfl⟩
  · intro hh
    unfold clear_command
    rw [hh]
    exact ⟨rfl, rfl⟩

/-- Witness for the amended C9 theorem on a one-turn and on an absent
history. -/
theorem clear_command_cases_witness :
    (clear_command ⟨some ["turn"], true⟩).1.history = none ∧
    (clear_command ⟨none, true⟩).2 = noHistoryReply :=
  ⟨((clear_command_cases ⟨some ["turn"], true⟩).1 ["turn"] rfl).1,
   ((clear_command_cases ⟨none, true⟩).2 rfl).2⟩

/-- C10: when the text-generation call fails, the stored history is not
updated with the failed turn: it keeps the value it held when the call
began — a previously absent entry having been initialized to the empty
sequence just before the call, and staying empty — and the apology is
sent. -/
theorem handle_message_error_preserves_history (ud : UserData) (text : String)
    (api : List String → String → Except PyErr (String × List String)) (e : PyErr)
    (herr : api (ud.history.getD []) text = .error e) :
    (handle_message ud text api).1.history = some (ud.history.getD []) ∧
    (handle_message ud text api).2
      = "Sorry, an error occurred with the text generation." := by
  rcases hh : ud.history with _ | h
  · have herr2 : api [] text = .error e := by
      rw [hh] at herr; exact herr
    simp [handle_message, hh, herr2]
  · have herr2 : api h text = .error e := by
      rw [hh] at herr; exact herr
    simp [handle_message, hh, herr2]

/-- Witness for C10: an absent history and an always-failing model call. -/
theorem handle_message_error_preserves_history_witness :
    (handle_message ⟨none, false⟩ "hi"
      (fun _ _ => .error .requestError)).1.history = some [] ∧
    (handle_message ⟨none, false⟩ "hi" (fun _ _ => .error .requestError)).2
      = "Sorry, an error occurred with the text generation." :=
  handle_message_error_preserves_history ⟨none, false⟩ "hi"
    (fun _ _ => .error .requestError) .requestError rfl

end Twai
